import Mathlib

/-!
Shallow embedding of the query-dispatch layer of the `mcp_aiassistant_gcp`
repository: the two database MCP servers (`database_mcp_server.py`, the
original SQLite-backed server, and `database_mcp_serverv2.py`, the
PostgreSQL-backed rewrite).  Pure string manipulation, the query safety
gates, SQL text generation for the resource handlers, result serialization
and the pool-initialization state machine are translated into executable
Lean definitions, and the spec's claims are settled against them.
-/

namespace MCP

/-- Python whitespace for `str.split()` / `str.strip()`: space, tab,
newline, carriage return, vertical tab, form feed. -/
def isPyWhitespace (c : Char) : Bool :=
  c == ' ' || c == '\t' || c == '\n' || c == '\r' || c == '\x0b' || c == '\x0c'

/-- Python `s.lower()`.  The sources lowercase SQL text before keyword
matching; on the ASCII range (all that matters for the keywords at stake)
this is a character-wise map. -/
def pyToLower (s : String) : String :=
  String.mk (s.data.map Char.toLower)

/-- Python `s.split()` (no separator argument): split on whitespace,
discarding empty pieces, i.e. the maximal whitespace-free runs. -/
def pySplit (s : String) : List String :=
  ((s.data.splitOnP isPyWhitespace).filter fun t => t != []).map String.mk

/-- Python `s.strip()`: drop leading and trailing whitespace. -/
def pyStrip (s : String) : String :=
  ((s.data.dropWhile fun c => isPyWhitespace c).reverse.dropWhile
    fun c => isPyWhitespace c).reverse.asString

/-- `startsWithL needle hay`: the character list `needle` is a prefix of `hay`. -/
def startsWithL : List Char → List Char → Bool
  | [], _ => true
  | _ :: _, [] => false
  | a :: as, b :: bs => a == b && startsWithL as bs

/-- Auxiliary scan for substring containment over character lists. -/
def containsSubAux (needle : List Char) : List Char → Bool
  | [] => needle.isEmpty
  | c :: t => startsWithL needle (c :: t) || containsSubAux needle t

/-- Python `needle in hay` on strings: substring containment. -/
def containsSub (hay needle : String) : Bool :=
  containsSubAux needle.data hay.data

/-- A calendar timestamp, modelling Python's `datetime.datetime`
(microsecond granularity, no timezone — the servers never attach one). -/
structure PyDateTime where
  year : Nat
  month : Nat
  day : Nat
  hour : Nat
  minute : Nat
  second : Nat
  microsecond : Nat
deriving DecidableEq, Repr

/-- Zero-pad a numeral to width `w`. -/
def padNum (w : Nat) (n : Nat) : String :=
  let s := toString n
  String.mk (List.replicate (w - s.length) '0') ++ s

/-- Python `datetime.isoformat()`: `YYYY-MM-DDTHH:MM:SS`, with
`.ffffff` appended when the microsecond field is nonzero. -/
def isoformat (d : PyDateTime) : String :=
  padNum 4 d.year ++ "-" ++ padNum 2 d.month ++ "-" ++ padNum 2 d.day ++ "T" ++
    padNum 2 d.hour ++ ":" ++ padNum 2 d.minute ++ ":" ++ padNum 2 d.second ++
    (if d.microsecond == 0 then "" else "." ++ padNum 6 d.microsecond)

/-- Native column values as the asyncpg driver can hand them to the row
loop: JSON-ready scalars, plus `datetime`, `Decimal`, and types with no
conversion rule (modelled by `bytes`).  Python `float` and `Decimal`
payloads are both modelled as exact rationals. -/
inductive PyVal where
  | none
  | bool (b : Bool)
  | int (i : Int)
  | float (q : ℚ)
  | str (s : String)
  | datetime (d : PyDateTime)
  | decimal (q : ℚ)
  | bytes (bs : List Nat)
deriving DecidableEq, Repr

/-- `isinstance(value, datetime)`. -/
def PyVal.isDatetime : PyVal → Bool
  | .datetime _ => true
  | _ => false

/-- `isinstance(value, Decimal)`. -/
def PyVal.isDecimal : PyVal → Bool
  | .decimal _ => true
  | _ => false

/-- The per-value conversion applied in the row loops of `execute_query`
and `get_table_data` (serverv2): `datetime` → `value.isoformat()`,
`Decimal` → `float(value)`, everything else left untouched. -/
def serializeVal : PyVal → PyVal
  | .datetime d => .str (isoformat d)
  | .decimal q => .float q
  | v => v

/-- A fetched row: ordered mapping from column name to native value. -/
abbrev Row := List (String × PyVal)

/-- The row loop of serverv2: `{key: row[key] for key in row.keys()}`
followed by the per-value conversion — keys and their order are kept,
values are rewritten in place. -/
def serializeRow (r : Row) : Row :=
  r.map fun p => (p.1, serializeVal p.2)

/-- The uniform response envelope `{success, results | error}`. -/
inductive Envelope where
  | ok (results : List Row)
  | err (error : String)
deriving DecidableEq, Repr

/-- `asyncpg.quote_ident`'s escaping of the identifier body: every
double-quote character is doubled. -/
def escQuote : List Char → List Char
  | [] => []
  | c :: cs => if c == '"' then '"' :: '"' :: escQuote cs else c :: escQuote cs

/-- `asyncpg.quote_ident(name)`: wrap in double quotes, doubling any
embedded double quote. -/
def quote_ident (s : String) : String :=
  String.mk ('"' :: escQuote s.data ++ ['"'])

namespace V1
/-! `database_mcp_server.py` (original SQLite server). -/

/-- `_is_safe_query` of `database_mcp_server.py`: lowercases and strips the
query, tests the denylisted keywords as substrings — and returns `True` on
every branch, including every keyword branch. -/
def is_safe_query (sql : String) : Bool :=
  let sql_lower := pyStrip (pyToLower sql)
  if containsSub sql_lower "delete" then true
  else if containsSub sql_lower "drop" then true
  else if containsSub sql_lower "insert" then true
  else if containsSub sql_lower "update" then true
  else if containsSub sql_lower "truncate" then true
  else true

/-- SQL text built by `get_table_data` of `database_mcp_server.py`:
the table name is interpolated raw into the f-string; `limit` and
`offset` are bind parameters (`:limit`, `:offset`). -/
def data_sql (table_name : String) : String :=
  "SELECT * FROM " ++ table_name ++ " LIMIT :limit OFFSET :offset"

/-- Bind-parameter dictionary passed alongside `data_sql`. -/
def data_params (limit offset : Int) : List (String × Int) :=
  [("limit", limit), ("offset", offset)]

/-- SQL text built by `get_table_stats` of `database_mcp_server.py`:
again the table name is interpolated raw. -/
def stats_sql (table_name : String) : String :=
  "SELECT COUNT(*) FROM " ++ table_name

end V1

namespace V2
/-! `database_mcp_serverv2.py` (PostgreSQL server). -/

/-- `_DENIED_KEYWORDS` of `database_mcp_serverv2.py`. -/
def deniedKeywords : List String :=
  ["insert", "update", "delete", "drop", "truncate", "alter"]

/-- `_is_safe_query` of `database_mcp_serverv2.py`:
`tokens = sql.lower().split()`; permitted iff `tokens` is nonempty and no
denylisted keyword occurs as a whole token.  (The commented-out variant
additionally requiring `tokens[0] == "select"` is not active code.) -/
def is_safe_query (sql : String) : Bool :=
  let tokens := pySplit (pyToLower sql)
  !tokens.isEmpty && !(deniedKeywords.any fun k => tokens.contains k)

/-- `execute_query` of serverv2, abstracting the database as a function
from query text to fetched rows: gate first (error envelope on
rejection), then fetch and run every row through the serialization loop. -/
def execute_query (db : String → List Row) (sql : String) : Envelope :=
  if is_safe_query sql then .ok ((db sql).map serializeRow)
  else .err "Only safe SELECT queries are allowed."

/-- Query text built by `get_table_data` (serverv2):
`f"SELECT * FROM {asyncpg.quote_ident(table_name)} LIMIT $1 OFFSET $2;"`. -/
def data_sql (table_name : String) : String :=
  "SELECT * FROM " ++ quote_ident table_name ++ " LIMIT $1 OFFSET $2;"

/-- Positional bind arguments of `conn.fetch(sql, limit, offset)` in
`get_table_data` (serverv2): the caller's values, as given. -/
def data_params (limit offset : Int) : List Int :=
  [limit, offset]

/-- Query text built by `get_table_stats` (serverv2):
`f"SELECT COUNT(*) FROM {asyncpg.quote_ident(table_name)};"`. -/
def stats_sql (table_name : String) : String :=
  "SELECT COUNT(*) FROM " ++ quote_ident table_name ++ ";"

/-- One row of `information_schema.columns`, already shaped as the
handler emits it: `name`, `type`, `nullable`. -/
structure Column where
  name : String
  type : String
  nullable : Bool
deriving DecidableEq, Repr

/-- The visible state of the PostgreSQL catalog: for each table name the
ordered column rows of `information_schema.columns`, and the `COUNT(*)`
the database would report per table. -/
structure Db where
  tables : List (String × List Column)
  rowCount : String → Nat

/-- The rows the catalog query of `get_table_schema` returns for `t`:
all `information_schema.columns` entries whose `table_name` equals `t`,
in catalog order.  A name with no column row is invisible to this query. -/
def schemaRows (db : Db) (t : String) : List Column :=
  ((db.tables.filter fun p => p.1 = t).map Prod.snd).flatten

/-- Result shape of `get_table_schema` (serverv2). -/
structure SchemaResult where
  table_name : String
  columns : List Column
deriving DecidableEq, Repr

/-- `get_table_schema` of serverv2: parameterised catalog query, result
rows mapped to column descriptors.  Total — an unknown name yields an
ordinary result with an empty `columns` list, not an error. -/
def get_table_schema (db : Db) (t : String) : SchemaResult :=
  { table_name := t, columns := schemaRows db t }

/-- Result shape of `get_table_stats` (serverv2). -/
structure StatsResult where
  table_name : String
  total_rows : Nat
  column_count : Nat
deriving DecidableEq, Repr

/-- `get_table_stats` of serverv2: `COUNT(*)` for `total_rows`, then a
call to `get_table_schema` whose column-list length becomes
`column_count`. -/
def get_table_stats (db : Db) (t : String) : StatsResult :=
  { table_name := t
    total_rows := db.rowCount t
    column_count := (get_table_schema db t).columns.length }

/-- The module-level pool handle `_db_pool` together with a count of the
pools created so far; pools are identified by their creation index. -/
structure PoolState where
  pool : Option Nat
  created : Nat
deriving DecidableEq, Repr

/-- `init_db` of serverv2: `if _db_pool: return _db_pool` — otherwise a
fresh pool is created, stored in the global handle, and returned. -/
def init_db (s : PoolState) : PoolState × Nat :=
  match s.pool with
  | some p => (s, p)
  | Option.none => ({ pool := some s.created, created := s.created + 1 }, s.created)

/-- `close_db` of serverv2: close and clear the handle when set,
otherwise do nothing. -/
def close_db (s : PoolState) : PoolState :=
  match s.pool with
  | some _ => { s with pool := Option.none }
  | Option.none => s

end V2

/-- A one-table demonstration catalog: `users(id integer not null)`,
reported to hold five rows. -/
def demoDb : V2.Db :=
  { tables := [("users", [{ name := "id", type := "integer", nullable := false }])]
    rowCount := fun _ => 5 }

end MCP

/-! ## Helper lemmas -/

/-- Escaping an identifier body never produces the empty list. -/
theorem escQuote_ne_nil (c : Char) (cs : List Char) : MCP.escQuote (c :: cs) ≠ [] := by
  simp only [MCP.escQuote]
  split <;> simp

/-- Quote-doubling is injective: no two identifier bodies collide after
escaping. -/
theorem escQuote_inj (a : List Char) :
    ∀ b : List Char, MCP.escQuote a = MCP.escQuote b → a = b := by
  induction a with
  | nil =>
    intro b h
    cases b with
    | nil => rfl
    | cons c cs => exact absurd h.symm (escQuote_ne_nil c cs)
  | cons x xs ih =>
    intro b h
    cases b with
    | nil => exact absurd h (escQuote_ne_nil x xs)
    | cons y ys =>
      by_cases hx : x = '"' <;> by_cases hy : y = '"' <;>
        simp [MCP.escQuote, hx, hy] at h
      · exact by simp [hx, hy, ih ys h]
      · exact absurd h.1.symm hy
      · exact by simp [h.1, ih ys h.2]

/-! ## Claims -/

/-- Claim C2: the original server's safety classifier
(`_is_safe_query` in `database_mcp_server.py`) returns permitted (`True`)
for every input string, regardless of the keyword checks it performs. -/
theorem v1_is_safe_query_always_true (sql : String) :
    MCP.V1.is_safe_query sql = true := by
  simp [MCP.V1.is_safe_query]

/-- Claim C6 (counterexample): a value with no conversion rule (a
`bytes` payload) is passed through the serialization loop raw and
unchanged — no `UnsupportedColumnType` failure exists. -/
theorem unsupported_type_passes_through_raw :
    MCP.serializeRow [("payload", MCP.PyVal.bytes [0, 255])] =
        [("payload", MCP.PyVal.bytes [0, 255])] ∧
      MCP.serializeVal (MCP.PyVal.bytes [0, 255]) = MCP.PyVal.bytes [0, 255] :=
  ⟨rfl, rfl⟩

/-- Claim C6 (amended): the serializer is total and has no error path —
a native value of a type with no conversion rule is emitted raw and
unchanged, for any column name and payload. -/
theorem serializer_total_passthrough (c : String) (bs : List Nat) :
    MCP.serializeVal (MCP.PyVal.bytes bs) = MCP.PyVal.bytes bs ∧
      MCP.serializeRow [(c, MCP.PyVal.bytes bs)] = [(c, MCP.PyVal.bytes bs)] :=
  ⟨rfl, rfl⟩

/-- Claim C7: pool initialization is idempotent — when the pool handle is
already set, `init_db` returns the existing pool and the state unchanged,
and the count of pools ever created does not grow. -/
theorem init_db_idempotent (s : MCP.V2.PoolState) (p : Nat) (h : s.pool = some p) :
    MCP.V2.init_db s = (s, p) ∧ (MCP.V2.init_db s).1.created = s.created := by
  simp [MCP.V2.init_db, h]

/-- Witness for `init_db_idempotent` at an initialized state. -/
theorem init_db_idempotent_witness :
    (MCP.V2.PoolState.mk (some 7) 8).pool = some 7 ∧
      MCP.V2.init_db ⟨some 7, 8⟩ = (⟨some 7, 8⟩, 7) :=
  ⟨rfl, (init_db_idempotent ⟨some 7, 8⟩ 7 rfl).1⟩

/-- Claim C8 (counterexample): the non-positive limit `-5` is forwarded
verbatim in the bind arguments of the `data://` query — it is neither
clamped nor rejected before database access. -/
theorem nonpositive_limit_forwarded_verbatim :
    MCP.V2.data_params (-5) 0 = [-5, 0] ∧ (-5 : Int) ≤ 0 ∧
      MCP.V2.data_sql "users" = "SELECT * FROM \"users\" LIMIT $1 OFFSET $2;" :=
  ⟨rfl, by decide, rfl⟩

/-- Claim C8 (amended): `get_table_data` forwards `limit` and `offset`
to the database unchanged as bind parameters, in both servers; no
clamping, bounds check or rejection is performed. -/
theorem data_params_forwarded_unchanged (limit offset : Int) :
    MCP.V2.data_params limit offset = [limit, offset] ∧
      MCP.V1.data_params limit offset = [("limit", limit), ("offset", offset)] :=
  ⟨rfl, rfl⟩

/-- Claim C10: the per-value serialization is the identity on every value
that is neither a `datetime` nor a `Decimal`; datetimes become ISO-format
strings, Decimals become floats; and per row the column-name list — set
and order — is preserved exactly. -/
theorem serialization_identity_and_column_frame :
    (∀ v : MCP.PyVal, v.isDatetime = false → v.isDecimal = false →
        MCP.serializeVal v = v) ∧
      (∀ d, MCP.serializeVal (MCP.PyVal.datetime d) = MCP.PyVal.str (MCP.isoformat d)) ∧
      (∀ q, MCP.serializeVal (MCP.PyVal.decimal q) = MCP.PyVal.float q) ∧
      (∀ r : MCP.Row, (MCP.serializeRow r).map Prod.fst = r.map Prod.fst) := by
  refine ⟨?_, fun _ => rfl, fun _ => rfl, ?_⟩
  · intro v h1 h2
    cases v <;> simp_all [MCP.serializeVal, MCP.PyVal.isDatetime, MCP.PyVal.isDecimal]
  · intro r
    induction r with
    | nil => rfl
    | cons p t ih =>
      simp only [MCP.serializeRow, List.map_cons] at ih ⊢
      rw [ih]

/-- Witness for `serialization_identity_and_column_frame`: integers and
nulls survive serialization unchanged. -/
theorem serialization_identity_and_column_frame_witness :
    MCP.serializeVal (MCP.PyVal.int 3) = MCP.PyVal.int 3 ∧
      MCP.serializeVal MCP.PyVal.none = MCP.PyVal.none :=
  ⟨serialization_identity_and_column_frame.1 (MCP.PyVal.int 3) rfl rfl,
   serialization_identity_and_column_frame.1 MCP.PyVal.none rfl rfl⟩

/-- Claim C1: a query in which a denylisted keyword occurs as a standalone
whitespace-delimited token (any case, any surrounding whitespace, i.e. it
is one of the tokens of the lowercased split) is rejected by the gate and
answered with the error envelope by `execute_query`; a query whose tokens
include no denylisted keyword — even when a keyword occurs as a substring
of a larger token — is permitted and executed. -/
theorem execute_query_rejects_denylisted_tokens
    (db : String → List MCP.Row) (sql : String) :
    ((∃ k ∈ MCP.V2.deniedKeywords, k ∈ MCP.pySplit (MCP.pyToLower sql)) →
        MCP.V2.is_safe_query sql = false ∧
          MCP.V2.execute_query db sql =
            MCP.Envelope.err "Only safe SELECT queries are allowed.") ∧
      (MCP.pySplit (MCP.pyToLower sql) ≠ [] →
        (∀ k ∈ MCP.V2.deniedKeywords, k ∉ MCP.pySplit (MCP.pyToLower sql)) →
          MCP.V2.is_safe_query sql = true ∧
            MCP.V2.execute_query db sql =
              MCP.Envelope.ok ((db sql).map MCP.serializeRow)) := by
  constructor
  · rintro ⟨k, hk, hmem⟩
    have hgate : MCP.V2.is_safe_query sql = false := by
      simp only [MCP.V2.is_safe_query, Bool.and_eq_false_iff, Bool.not_eq_false',
        List.any_eq_true, List.elem_iff]
      exact Or.inr ⟨k, hk, hmem⟩
    exact ⟨hgate, by simp [MCP.V2.execute_query, hgate]⟩
  · intro hne hnot
    have hgate : MCP.V2.is_safe_query sql = true := by
      simp only [MCP.V2.is_safe_query, Bool.and_eq_true, Bool.not_eq_true',
        List.isEmpty_eq_false, List.any_eq_false, ne_eq, List.elem_iff]
      exact ⟨hne, hnot⟩
    exact ⟨hgate, by simp [MCP.V2.execute_query, hgate]⟩

/-- Witness for `execute_query_rejects_denylisted_tokens`: the spec's two
examples — `"  DROP TABLE users;"` is rejected, while
`"SELECT * FROM dropped_items"` (where `drop` occurs only inside the
token `dropped_items`) is permitted. -/
theorem execute_query_rejects_denylisted_tokens_witness :
    MCP.V2.is_safe_query "  DROP TABLE users;" = false ∧
      MCP.V2.is_safe_query "SELECT * FROM dropped_items" = true :=
  ⟨((execute_query_rejects_denylisted_tokens (fun _ => []) "  DROP TABLE users;").1
      (by decide)).1,
   ((execute_query_rejects_denylisted_tokens (fun _ => []) "SELECT * FROM dropped_items").2
      (by decide) (by decide)).1⟩

/-- Claim C3 (counterexample): `"EXPLAIN SELECT 1"` has leading token
`explain`, not `select`, yet the gate permits it — the gate is not
"permit only a leading SELECT". -/
theorem gate_permits_non_select_leading_token :
    (MCP.pySplit (MCP.pyToLower "EXPLAIN SELECT 1")).head? = some "explain" ∧
      ("explain" : String) ≠ "select" ∧
      MCP.V2.is_safe_query "EXPLAIN SELECT 1" = true := by decide

/-- Claim C3 (amended): the gate implements "permit unless denylisted",
not "permit only leading SELECT" — a query is permitted iff its token
list is nonempty and contains no denylisted keyword, with no condition on
the leading token. -/
theorem gate_permits_iff_no_denylisted_token (sql : String) :
    MCP.V2.is_safe_query sql = true ↔
      (MCP.pySplit (MCP.pyToLower sql) ≠ [] ∧
        ∀ k ∈ MCP.V2.deniedKeywords, k ∉ MCP.pySplit (MCP.pyToLower sql)) := by
  simp only [MCP.V2.is_safe_query, Bool.and_eq_true, Bool.not_eq_true',
    List.isEmpty_eq_false, List.any_eq_false, ne_eq, List.elem_iff]

/-- Claim C4 (counterexample): the original server's `stats://` and
`data://` handlers concatenate the table name raw into the query text —
at a malicious name the generated SQL is the verbatim concatenation and
is not the identifier-quoted embedding. -/
theorem v1_embeds_identifier_raw :
    MCP.V1.stats_sql "users; DROP TABLE users" =
        "SELECT COUNT(*) FROM users; DROP TABLE users" ∧
      MCP.V1.stats_sql "users; DROP TABLE users" ≠
        "SELECT COUNT(*) FROM " ++ MCP.quote_ident "users; DROP TABLE users" ∧
      MCP.V1.data_sql "users; DROP TABLE users" =
        "SELECT * FROM users; DROP TABLE users LIMIT :limit OFFSET :offset" :=
  ⟨rfl, by decide, rfl⟩

/-- Claim C4 (amended): only the v2 handlers pass the table name through
the identifier-quoting step (`asyncpg.quote_ident`, a lossless — injective
— escaping) while passing `limit`/`offset` as bind parameters; the v1
handlers concatenate the table name raw into the generated SQL. -/
theorem identifier_embedding_v2_quoted_v1_raw (t u : String) (limit offset : Int) :
    (MCP.V2.data_sql t = "SELECT * FROM " ++ MCP.quote_ident t ++ " LIMIT $1 OFFSET $2;" ∧
        MCP.V2.stats_sql t = "SELECT COUNT(*) FROM " ++ MCP.quote_ident t ++ ";" ∧
        MCP.V2.data_params limit offset = [limit, offset]) ∧
      (MCP.quote_ident t = MCP.quote_ident u → t = u) ∧
      (MCP.V1.data_sql t = "SELECT * FROM " ++ t ++ " LIMIT :limit OFFSET :offset" ∧
        MCP.V1.stats_sql t = "SELECT COUNT(*) FROM " ++ t) := by
  refine ⟨⟨rfl, rfl, rfl⟩, ?_, rfl, rfl⟩
  intro h
  have h2 : '"' :: MCP.escQuote t.data ++ ['"'] = '"' :: MCP.escQuote u.data ++ ['"'] :=
    congrArg String.data h
  have h3 : MCP.escQuote t.data = MCP.escQuote u.data :=
    List.append_cancel_right (List.cons_injective h2)
  have h4 : t.data = u.data := escQuote_inj t.data u.data h3
  cases t
  cases u
  exact congrArg String.mk h4

/-- Witness for `identifier_embedding_v2_quoted_v1_raw`: the `users`
table, with the quoting hypothesis discharged reflexively. -/
theorem identifier_embedding_v2_quoted_v1_raw_witness :
    MCP.V2.data_sql "users" =
        "SELECT * FROM " ++ MCP.quote_ident "users" ++ " LIMIT $1 OFFSET $2;" ∧
      ("users" : String) = "users" :=
  ⟨(identifier_embedding_v2_quoted_v1_raw "users" "users" 10 0).1.1,
   (identifier_embedding_v2_quoted_v1_raw "users" "users" 10 0).2.1 rfl⟩

/-- Claim C5 (counterexample): for the absent table name `ghost`,
`get_table_schema` does not fail with `UnknownTable` — it returns an
ordinary successful result with an empty column list — and both servers
still build `data://` SQL embedding the unvalidated name (quoted in v2,
raw in v1). -/
theorem unknown_table_yields_empty_schema_success :
    MCP.V2.get_table_schema MCP.demoDb "ghost" = { table_name := "ghost", columns := [] } ∧
      MCP.V2.data_sql "ghost" = "SELECT * FROM \"ghost\" LIMIT $1 OFFSET $2;" ∧
      MCP.V1.data_sql "ghost" = "SELECT * FROM ghost LIMIT :limit OFFSET :offset" :=
  ⟨rfl, rfl, rfl⟩

/-- Claim C5 (amended): an absent table name is never detected — the
schema query simply returns no rows, so `get_table_schema` answers
successfully with an empty column list, `get_table_stats` reports
`column_count = 0`, and the `data://` SQL is built from the (quoted but
catalog-unvalidated) name; no `UnknownTable` error exists in the code. -/
theorem unknown_table_no_unknownTable_error (db : MCP.V2.Db) (t : String)
    (h : ∀ p ∈ db.tables, p.1 ≠ t) :
    MCP.V2.get_table_schema db t = { table_name := t, columns := [] } ∧
      (MCP.V2.get_table_stats db t).column_count = 0 ∧
      MCP.V2.data_sql t = "SELECT * FROM " ++ MCP.quote_ident t ++ " LIMIT $1 OFFSET $2;" := by
  have hfilter : db.tables.filter (fun p => p.1 = t) = [] :=
    List.filter_eq_nil_iff.mpr fun p hp => by simpa using h p hp
  have hrows : MCP.V2.schemaRows db t = [] := by
    simp [MCP.V2.schemaRows, hfilter]
  exact ⟨by simp [MCP.V2.get_table_schema, hrows],
    by simp [MCP.V2.get_table_stats, MCP.V2.get_table_schema, hrows], rfl⟩

/-- Witness for `unknown_table_no_unknownTable_error` at the demo catalog
and the absent name `ghost`. -/
theorem unknown_table_no_unknownTable_error_witness :
    MCP.V2.get_table_schema MCP.demoDb "ghost" = { table_name := "ghost", columns := [] } ∧
      (MCP.V2.get_table_stats MCP.demoDb "ghost").column_count = 0 :=
  ⟨(unknown_table_no_unknownTable_error MCP.demoDb "ghost" (by decide)).1,
   (unknown_table_no_unknownTable_error MCP.demoDb "ghost" (by decide)).2.1⟩

/-- Claim C9: for a table present in the catalog (the schema query sees at
least one `information_schema.columns` row for it), `get_table_schema`
returns a non-empty column sequence, and its length equals the
`column_count` field of `get_table_stats` for the same table. -/
theorem schema_length_eq_stats_column_count (db : MCP.V2.Db) (t : String)
    (cols : List MCP.V2.Column) (hmem : (t, cols) ∈ db.tables) (hne : cols ≠ []) :
    (MCP.V2.get_table_schema db t).columns ≠ [] ∧
      (MCP.V2.get_table_schema db t).columns.length =
        (MCP.V2.get_table_stats db t).column_count := by
  refine ⟨?_, rfl⟩
  intro hnil
  have hc : cols ∈ (db.tables.filter fun p => p.1 = t).map Prod.snd :=
    List.mem_map.mpr ⟨(t, cols), List.mem_filter.mpr ⟨hmem, by simp⟩, rfl⟩
  have hflat : MCP.V2.schemaRows db t = [] := hnil
  exact hne (List.flatten_eq_nil_iff.mp hflat cols hc)

/-- Witness for `schema_length_eq_stats_column_count` at the demo
catalog's `users` table. -/
theorem schema_length_eq_stats_column_count_witness :
    (MCP.V2.get_table_schema MCP.demoDb "users").columns ≠ [] ∧
      (MCP.V2.get_table_schema MCP.demoDb "users").columns.length =
        (MCP.V2.get_table_stats MCP.demoDb "users").column_count :=
  schema_length_eq_stats_column_count MCP.demoDb "users"
    [{ name := "id", type := "integer", nullable := false }]
    (by decide) (by decide)
